import Mathlib

/-!
Verification of the operation-composition and schema-derivation core of
fastify-sequelize-api-generator, modelled shallowly from src/index.js.

The model covers: schema-identifier naming (FastifyGetSchemaName), the
Out/Post/Patch schema derivation and registration (FastifyAddModelSchema),
the route composition of FastifySequelizeAPI (methods, paths, body and
response schema references, assertion checks on missing arguments), the
per-request authorization pre-handler, and the UPDATE and DESTROY handler
bodies.  External collaborators (fastify itself, sequelize-json-schema,
the change-case library) are modelled at their interface boundary.
-/

/-- The space character, written via its code point. -/
def spaceChar : Char := Char.ofNat 32

/-- Model of the pascalCase transform from the change-case library,
restricted to space-separated words (the only separator this code base
feeds it): split on spaces, uppercase the first character of each word,
lowercase the rest, and join.  The boolean argument tracks whether the
next character starts a word. -/
def pascalChars : List Char → Bool → List Char
  | [], _ => []
  | c :: cs, wordStart =>
    if c = spaceChar then pascalChars cs true
    else (if wordStart then c.toUpper else c.toLower) :: pascalChars cs false

/-- pascalCase on strings. -/
def pascalCase (s : String) : String := String.mk (pascalChars s.data true)

/-- Model of camelCase: pascalCase with the first character lowercased. -/
def camelCase (s : String) : String :=
  match (pascalCase s).data with
  | [] => ""
  | c :: cs => String.mk (c.toLower :: cs)

/-- Source (src/index.js line 9): FastifyGetSchemaName(Model, variation)
returns pascalCase of the template literal joining Model.name, a space,
and the variation tag. -/
def FastifyGetSchemaName (modelName : String) (variation : String) : String :=
  pascalCase (modelName ++ " " ++ variation)

theorem string_data_append (s t : String) : (s ++ t).data = s.data ++ t.data := by
  cases s; cases t; rfl

theorem space_data : " ".data = [spaceChar] := by decide

theorem pascalChars_append_space (ys : List Char) :
    ∀ (xs : List Char) (b : Bool),
      pascalChars (xs ++ spaceChar :: ys) b = pascalChars xs b ++ pascalChars ys true
  | [], b => by simp [pascalChars]
  | c :: xs, b => by
    by_cases hc : c = spaceChar <;>
      simp [pascalChars, hc, pascalChars_append_space ys xs]

theorem pascalChars_append_space_nil (xs : List Char) (b : Bool) :
    pascalChars (xs ++ [spaceChar]) b = pascalChars xs b := by
  have h := pascalChars_append_space [] xs b
  simpa [pascalChars] using h

theorem FGSN_out_eq (n : String) : FastifyGetSchemaName n "" = pascalCase n := by
  unfold FastifyGetSchemaName pascalCase
  have hdata : (n ++ " " ++ "").data = n.data ++ [spaceChar] := by
    rw [string_data_append, string_data_append, List.append_assoc]
    congr 1
  rw [hdata, pascalChars_append_space_nil]

theorem FGSN_variant_data (n v : String) :
    (FastifyGetSchemaName n v).data = pascalChars n.data true ++ pascalChars v.data true := by
  unfold FastifyGetSchemaName pascalCase
  have hdata : (n ++ " " ++ v).data = n.data ++ spaceChar :: v.data := by
    rw [string_data_append, string_data_append, List.append_assoc, space_data]
    rfl
  show pascalChars (n ++ " " ++ v).data true = _
  rw [hdata, pascalChars_append_space]

theorem FGSN_out_data (n : String) :
    (FastifyGetSchemaName n "").data = pascalChars n.data true := by
  rw [FGSN_out_eq]
  rfl

theorem FGSN_out_ne_post (n : String) :
    FastifyGetSchemaName n "" ≠ FastifyGetSchemaName n "post" := by
  intro h
  have hd := congrArg String.data h
  rw [FGSN_out_data, FGSN_variant_data] at hd
  have hlen := congrArg List.length hd
  rw [List.length_append] at hlen
  have h4 : (pascalChars "post".data true).length = 4 := by decide
  omega

theorem FGSN_out_ne_patch (n : String) :
    FastifyGetSchemaName n "" ≠ FastifyGetSchemaName n "patch" := by
  intro h
  have hd := congrArg String.data h
  rw [FGSN_out_data, FGSN_variant_data] at hd
  have hlen := congrArg List.length hd
  rw [List.length_append] at hlen
  have h5 : (pascalChars "patch".data true).length = 5 := by decide
  omega

theorem FGSN_post_ne_patch (n : String) :
    FastifyGetSchemaName n "post" ≠ FastifyGetSchemaName n "patch" := by
  intro h
  have hd := congrArg String.data h
  rw [FGSN_variant_data, FGSN_variant_data] at hd
  have htail := List.append_cancel_left hd
  revert htail
  decide

/-- Claim C9: for every entity name, the three schema identifiers are the
deterministic values pascalCase(entityName), pascalCase(entityName + " post")
and pascalCase(entityName + " patch").  FastifyGetSchemaName is a pure
function of the name and variation, so identical entity names always
produce identical identifiers across independent call sites. -/
theorem c9_schema_identifier_formula (n : String) :
    FastifyGetSchemaName n "" = pascalCase n ∧
    FastifyGetSchemaName n "post" = pascalCase (n ++ " post") ∧
    FastifyGetSchemaName n "patch" = pascalCase (n ++ " patch") := by
  refine ⟨FGSN_out_eq n, ?_, ?_⟩
  · unfold FastifyGetSchemaName pascalCase
    have hdata : (n ++ " " ++ "post").data = (n ++ " post").data := by
      rw [string_data_append, string_data_append, string_data_append, List.append_assoc]
      congr 1
    rw [hdata]
  · unfold FastifyGetSchemaName pascalCase
    have hdata : (n ++ " " ++ "patch").data = (n ++ " patch").data := by
      rw [string_data_append, string_data_append, string_data_append, List.append_assoc]
      congr 1
    rw [hdata]

/-- One JSON-schema property value.  The payload field stands for the opaque
type information produced by the external sequelize-json-schema collaborator;
the description field mirrors the description key that FastifyAddModelSchema
overwrites from the column comment (src/index.js line 59). -/
structure SProp where
  payload : String
  description : Option String
deriving DecidableEq, Repr

/-- Visibility classification of a field into exactly one of both,
read-only or write-only. -/
inductive Visibility where
  | both
  | readonly
  | writeonly
deriving DecidableEq, Repr

/-- The effective read-only set: the baked-in defaults id, createdAt and
updatedAt followed by the caller-supplied set (src/index.js line 52). -/
def effectiveReadOnly (readOnly : List String) : List String :=
  "id" :: "createdAt" :: "updatedAt" :: readOnly

/-- Classification following the branch order of the forEach in
FastifyAddModelSchema (src/index.js lines 61 to 68): first the both test,
then the read-only test, then the write-only test. -/
def classifyField (ro wo : List String) (k : String) : Visibility :=
  if k ∉ ro ∧ k ∉ wo then .both
  else if k ∈ ro then .readonly
  else .writeonly

/-- The forEach of FastifyAddModelSchema (src/index.js lines 58 to 69):
builds outProperties and inProperties in field order; each property value
first gets its description overwritten with the column comment.  The source
checks the caller writeOnly array in the first branch and the copied
underscore variant in the third; the two arrays are element-wise equal, so
both appear here as wo.  A field matching no branch is added to neither
map, exactly as in the source, where that branch is unreachable. -/
def deriveProps (ro wo : List String) (comments : String → Option String) :
    List (String × SProp) → List (String × SProp) × List (String × SProp)
  | [] => ([], [])
  | (k, v) :: rest =>
    let v2 : SProp := { v with description := comments k }
    let tail := deriveProps ro wo comments rest
    if k ∉ ro ∧ k ∉ wo then ((k, v2) :: tail.1, (k, v2) :: tail.2)
    else if k ∈ ro then ((k, v2) :: tail.1, tail.2)
    else if k ∈ wo then (tail.1, (k, v2) :: tail.2)
    else (tail.1, tail.2)

/-- A registered JSON schema: identifier, properties and required list. -/
structure FSchema where
  id : String
  properties : List (String × SProp)
  required : List String
deriving DecidableEq, Repr

/-- The Out, Post and Patch schemas derived for one entity. -/
structure SchemaTriple where
  out : FSchema
  post : FSchema
  patch : FSchema
deriving DecidableEq, Repr

/-- The key list of a property map, in order. -/
def keysOf (l : List (String × SProp)) : List String := l.map Prod.fst

/-- Schema derivation, the pure part of FastifyAddModelSchema (src/index.js
lines 47 to 94).  The call to sjs.getModelSchema is the external
sequelize-json-schema collaborator; per the spec its exclude option simply
removes fields from consideration and it supplies the entity-level required
list, so its output appears here as the fields and required inputs with
exclude applied as a filter. -/
def deriveSchemaTriple (modelName : String) (fields : List (String × SProp))
    (required : List String) (comments : String → Option String)
    (exclude readOnly writeOnly : List String) : SchemaTriple :=
  let consideredFields := fields.filter (fun p => p.1 ∉ exclude)
  let ro := effectiveReadOnly readOnly
  let pair := deriveProps ro writeOnly comments consideredFields
  { out := { id := FastifyGetSchemaName modelName ""
             properties := pair.1
             required := required.filter (fun i => i ∈ keysOf pair.1) }
    post := { id := FastifyGetSchemaName modelName "post"
              properties := pair.2
              required := required.filter (fun i => i ∈ keysOf pair.2) }
    patch := { id := FastifyGetSchemaName modelName "patch"
               properties := pair.2
               required := [] } }

/-- The shared fastify schema registry, modelled as the ordered list of
schemas passed to fastify.addSchema. -/
abbrev Registry := List FSchema

/-- Model of fastify.getSchema: the first registered schema with the given
identifier, if any. -/
def getSchema (reg : Registry) (n : String) : Option FSchema :=
  reg.find? (fun s => s.id = n)

/-- Model of fastify.addSchema: appends the schema to the registry. -/
def addSchema (reg : Registry) (s : FSchema) : Registry := reg ++ [s]

/-- Source: FastifyAddModelSchema (src/index.js lines 29 to 96).  Looks up
the three schema identifiers; when all three already exist it does nothing,
otherwise it derives the triple and registers all three. -/
def FastifyAddModelSchema (reg : Registry) (modelName : String)
    (fields : List (String × SProp)) (required : List String)
    (comments : String → Option String)
    (exclude readOnly writeOnly : List String) : Registry :=
  let nOut := FastifyGetSchemaName modelName ""
  let nPost := FastifyGetSchemaName modelName "post"
  let nPatch := FastifyGetSchemaName modelName "patch"
  if (getSchema reg nOut).isSome ∧ (getSchema reg nPost).isSome ∧
      (getSchema reg nPatch).isSome then
    reg
  else
    let t := deriveSchemaTriple modelName fields required comments exclude readOnly writeOnly
    addSchema (addSchema (addSchema reg t.out) t.post) t.patch

theorem keys_deriveProps_out (ro wo : List String) (comments : String → Option String) :
    ∀ l : List (String × SProp),
      keysOf (deriveProps ro wo comments l).1
        = (keysOf l).filter (fun k => classifyField ro wo k ≠ .writeonly)
  | [] => by simp [deriveProps, keysOf]
  | (k1, v) :: rest => by
    have ih := keys_deriveProps_out ro wo comments rest
    by_cases h1 : k1 ∉ ro ∧ k1 ∉ wo
    · have hc : classifyField ro wo k1 = .both := by simp [classifyField, h1]
      simp only [deriveProps, keysOf, List.map_cons, List.filter_cons, if_pos h1]
      simp [hc]
      simpa [keysOf] using ih
    · by_cases h2 : k1 ∈ ro
      · have hc : classifyField ro wo k1 = .readonly := by simp [classifyField, h1, h2]
        simp only [deriveProps, keysOf, List.map_cons, List.filter_cons, if_neg h1, if_pos h2]
        simp [hc]
        simpa [keysOf] using ih
      · by_cases h3 : k1 ∈ wo
        · have hc : classifyField ro wo k1 = .writeonly := by
            simp [classifyField, h2, h3]
          simp only [deriveProps, keysOf, List.map_cons, List.filter_cons, if_neg h1,
            if_neg h2, if_pos h3]
          simp [hc]
          simpa [keysOf] using ih
        · exact absurd ⟨h2, h3⟩ h1

theorem keys_deriveProps_in (ro wo : List String) (comments : String → Option String) :
    ∀ l : List (String × SProp),
      keysOf (deriveProps ro wo comments l).2
        = (keysOf l).filter (fun k => classifyField ro wo k ≠ .readonly)
  | [] => by simp [deriveProps, keysOf]
  | (k1, v) :: rest => by
    have ih := keys_deriveProps_in ro wo comments rest
    by_cases h1 : k1 ∉ ro ∧ k1 ∉ wo
    · have hc : classifyField ro wo k1 = .both := by simp [classifyField, h1]
      simp only [deriveProps, keysOf, List.map_cons, List.filter_cons, if_pos h1]
      simp [hc]
      simpa [keysOf] using ih
    · by_cases h2 : k1 ∈ ro
      · have hc : classifyField ro wo k1 = .readonly := by simp [classifyField, h1, h2]
        simp only [deriveProps, keysOf, List.map_cons, List.filter_cons, if_neg h1, if_pos h2]
        simp [hc]
        simpa [keysOf] using ih
      · by_cases h3 : k1 ∈ wo
        · have hc : classifyField ro wo k1 = .writeonly := by
            simp [classifyField, h2, h3]
          simp only [deriveProps, keysOf, List.map_cons, List.filter_cons, if_neg h1,
            if_neg h2, if_pos h3]
          simp [hc]
          simpa [keysOf] using ih
        · exact absurd ⟨h2, h3⟩ h1

theorem classify_or_iff_ne_writeonly (ro wo : List String) (k : String) :
    (classifyField ro wo k = .both ∨ classifyField ro wo k = .readonly)
      ↔ classifyField ro wo k ≠ .writeonly := by
  cases h : classifyField ro wo k <;> simp

theorem classify_or_iff_ne_readonly (ro wo : List String) (k : String) :
    (classifyField ro wo k = .both ∨ classifyField ro wo k = .writeonly)
      ↔ classifyField ro wo k ≠ .readonly := by
  cases h : classifyField ro wo k <;> simp

theorem dst_out_properties (m : String) (f : List (String × SProp)) (r : List String)
    (c : String → Option String) (e ro wo : List String) :
    (deriveSchemaTriple m f r c e ro wo).out.properties
      = (deriveProps (effectiveReadOnly ro) wo c (f.filter (fun p => p.1 ∉ e))).1 := rfl

theorem dst_post_properties (m : String) (f : List (String × SProp)) (r : List String)
    (c : String → Option String) (e ro wo : List String) :
    (deriveSchemaTriple m f r c e ro wo).post.properties
      = (deriveProps (effectiveReadOnly ro) wo c (f.filter (fun p => p.1 ∉ e))).2 := rfl

theorem dst_patch_properties (m : String) (f : List (String × SProp)) (r : List String)
    (c : String → Option String) (e ro wo : List String) :
    (deriveSchemaTriple m f r c e ro wo).patch.properties
      = (deriveProps (effectiveReadOnly ro) wo c (f.filter (fun p => p.1 ∉ e))).2 := rfl

theorem dst_out_required (m : String) (f : List (String × SProp)) (r : List String)
    (c : String → Option String) (e ro wo : List String) :
    (deriveSchemaTriple m f r c e ro wo).out.required
      = r.filter (fun i => i ∈ keysOf (deriveSchemaTriple m f r c e ro wo).out.properties) := rfl

theorem dst_post_required (m : String) (f : List (String × SProp)) (r : List String)
    (c : String → Option String) (e ro wo : List String) :
    (deriveSchemaTriple m f r c e ro wo).post.required
      = r.filter (fun i => i ∈ keysOf (deriveSchemaTriple m f r c e ro wo).post.properties) := rfl

/-- Claim C1: for every entity and every classification input, the derived
SchemaTriple satisfies: Out properties are exactly the considered fields
(the fields surviving exclude) classified both or read-only; Post
properties equal Patch properties and are exactly the considered fields
classified both or write-only; Out required is the entity-level required
list intersected with Out properties; Post required is the entity-level
required list intersected with Post properties; and Patch required is empty
regardless of the entity required list. -/
theorem c1_schema_triple_invariants (modelName : String)
    (fields : List (String × SProp)) (required : List String)
    (comments : String → Option String) (exclude readOnly writeOnly : List String) :
    (∀ k, k ∈ keysOf (deriveSchemaTriple modelName fields required comments exclude readOnly writeOnly).out.properties ↔
        k ∈ keysOf (fields.filter (fun p => p.1 ∉ exclude)) ∧
          (classifyField (effectiveReadOnly readOnly) writeOnly k = .both ∨
            classifyField (effectiveReadOnly readOnly) writeOnly k = .readonly)) ∧
    (deriveSchemaTriple modelName fields required comments exclude readOnly writeOnly).post.properties
      = (deriveSchemaTriple modelName fields required comments exclude readOnly writeOnly).patch.properties ∧
    (∀ k, k ∈ keysOf (deriveSchemaTriple modelName fields required comments exclude readOnly writeOnly).post.properties ↔
        k ∈ keysOf (fields.filter (fun p => p.1 ∉ exclude)) ∧
          (classifyField (effectiveReadOnly readOnly) writeOnly k = .both ∨
            classifyField (effectiveReadOnly readOnly) writeOnly k = .writeonly)) ∧
    (∀ k, k ∈ (deriveSchemaTriple modelName fields required comments exclude readOnly writeOnly).out.required ↔
        k ∈ required ∧
          k ∈ keysOf (deriveSchemaTriple modelName fields required comments exclude readOnly writeOnly).out.properties) ∧
    (∀ k, k ∈ (deriveSchemaTriple modelName fields required comments exclude readOnly writeOnly).post.required ↔
        k ∈ required ∧
          k ∈ keysOf (deriveSchemaTriple modelName fields required comments exclude readOnly writeOnly).post.properties) ∧
    (deriveSchemaTriple modelName fields required comments exclude readOnly writeOnly).patch.required = [] := by
  refine ⟨?_, rfl, ?_, ?_, ?_, rfl⟩
  · intro k
    rw [dst_out_properties, keys_deriveProps_out, List.mem_filter,
      classify_or_iff_ne_writeonly]
    simp
  · intro k
    rw [dst_post_properties, keys_deriveProps_in, List.mem_filter,
      classify_or_iff_ne_readonly]
    simp
  · intro k
    rw [dst_out_required, List.mem_filter]
    simp
  · intro k
    rw [dst_post_required, List.mem_filter]
    simp

/-- Claim C10: a field listed in both the caller readOnly set and the caller
writeOnly set is classified read-only, because the read-only branch of the
forEach is tested before the write-only branch: the field appears in Out
properties and in neither Post nor Patch properties. -/
theorem c10_overlap_classified_readonly (modelName : String)
    (fields : List (String × SProp)) (required : List String)
    (comments : String → Option String) (exclude readOnly writeOnly : List String)
    (k : String) (hro : k ∈ readOnly) (hwo : k ∈ writeOnly)
    (hfield : k ∈ keysOf (fields.filter (fun p => p.1 ∉ exclude))) :
    classifyField (effectiveReadOnly readOnly) writeOnly k = .readonly ∧
    k ∈ keysOf (deriveSchemaTriple modelName fields required comments exclude readOnly writeOnly).out.properties ∧
    k ∉ keysOf (deriveSchemaTriple modelName fields required comments exclude readOnly writeOnly).post.properties ∧
    k ∉ keysOf (deriveSchemaTriple modelName fields required comments exclude readOnly writeOnly).patch.properties := by
  have hk : k ∈ effectiveReadOnly readOnly := by simp [effectiveReadOnly, hro]
  have hc : classifyField (effectiveReadOnly readOnly) writeOnly k = .readonly := by
    simp [classifyField, hk, hwo]
  refine ⟨hc, ?_, ?_, ?_⟩
  · rw [dst_out_properties, keys_deriveProps_out, List.mem_filter]
    exact ⟨hfield, by simp [hc]⟩
  · rw [dst_post_properties, keys_deriveProps_in, List.mem_filter]
    simp [hc]
  · rw [dst_patch_properties, keys_deriveProps_in, List.mem_filter]
    simp [hc]

/-- Witness for claim C10 at a concrete overlapping field. -/
theorem c10_overlap_classified_readonly_witness :
    classifyField (effectiveReadOnly ["secret"]) ["secret"] "secret" = .readonly ∧
    "secret" ∈ keysOf (deriveSchemaTriple "widget" [("secret", ⟨"string", none⟩)] []
      (fun _ => none) [] ["secret"] ["secret"]).out.properties ∧
    "secret" ∉ keysOf (deriveSchemaTriple "widget" [("secret", ⟨"string", none⟩)] []
      (fun _ => none) [] ["secret"] ["secret"]).post.properties ∧
    "secret" ∉ keysOf (deriveSchemaTriple "widget" [("secret", ⟨"string", none⟩)] []
      (fun _ => none) [] ["secret"] ["secret"]).patch.properties :=
  c10_overlap_classified_readonly "widget" [("secret", ⟨"string", none⟩)] []
    (fun _ => none) [] ["secret"] ["secret"] "secret"
    (by decide) (by decide) (by decide)

theorem getSchema_addSchema_isSome (r : Registry) (s : FSchema) (n : String)
    (h : (getSchema r n).isSome) : getSchema (addSchema r s) n = getSchema r n := by
  unfold getSchema addSchema
  unfold getSchema at h
  rw [List.find?_append]
  obtain ⟨x, hx⟩ := Option.isSome_iff_exists.mp h
  rw [hx]
  rfl

theorem getSchema_addSchema_none (r : Registry) (s : FSchema) (n : String)
    (h : getSchema r n = none) :
    getSchema (addSchema r s) n = if s.id = n then some s else none := by
  unfold getSchema addSchema
  unfold getSchema at h
  rw [List.find?_append, h]
  by_cases hs : s.id = n <;> simp [List.find?_cons, hs]

theorem isSome_getSchema_addSchema_self (r : Registry) (s : FSchema) :
    (getSchema (addSchema r s) s.id).isSome := by
  cases h : getSchema r s.id with
  | some x =>
    rw [getSchema_addSchema_isSome r s s.id (by simp [h])]
    simp [h]
  | none =>
    rw [getSchema_addSchema_none r s s.id h]
    simp

theorem isSome_getSchema_addSchema_mono (r : Registry) (s : FSchema) (n : String)
    (h : (getSchema r n).isSome) : (getSchema (addSchema r s) n).isSome := by
  rw [getSchema_addSchema_isSome r s n h]
  exact h

theorem register_all_present (reg : Registry) (modelName : String)
    (fields : List (String × SProp)) (required : List String)
    (comments : String → Option String) (exclude readOnly writeOnly : List String) :
    (getSchema (FastifyAddModelSchema reg modelName fields required comments exclude readOnly writeOnly)
        (FastifyGetSchemaName modelName "")).isSome ∧
    (getSchema (FastifyAddModelSchema reg modelName fields required comments exclude readOnly writeOnly)
        (FastifyGetSchemaName modelName "post")).isSome ∧
    (getSchema (FastifyAddModelSchema reg modelName fields required comments exclude readOnly writeOnly)
        (FastifyGetSchemaName modelName "patch")).isSome := by
  by_cases hc : (getSchema reg (FastifyGetSchemaName modelName "")).isSome ∧
      (getSchema reg (FastifyGetSchemaName modelName "post")).isSome ∧
      (getSchema reg (FastifyGetSchemaName modelName "patch")).isSome
  · rw [FastifyAddModelSchema, if_pos hc]
    exact hc
  · rw [FastifyAddModelSchema, if_neg hc]
    refine ⟨?_, ?_, ?_⟩
    · exact isSome_getSchema_addSchema_mono _ _ _
        (isSome_getSchema_addSchema_mono _ _ _
          (isSome_getSchema_addSchema_self reg _))
    · exact isSome_getSchema_addSchema_mono _ _ _
        (isSome_getSchema_addSchema_self _ _)
    · exact isSome_getSchema_addSchema_self _ _

/-- Claim C3: schema registration is idempotent.  Registering the same
entity schemas twice leaves the registry of the first call unchanged (the
second call is a no-op, preserving whatever was registered first), fetching
any schema after the second call returns the same object as after the
first, and from an empty registry one call registers exactly the three
identifiers Out, Post and Patch, in that order. -/
theorem c3_registration_idempotent (reg : Registry) (modelName : String)
    (fields : List (String × SProp)) (required : List String)
    (comments : String → Option String) (exclude readOnly writeOnly : List String) :
    FastifyAddModelSchema
        (FastifyAddModelSchema reg modelName fields required comments exclude readOnly writeOnly)
        modelName fields required comments exclude readOnly writeOnly
      = FastifyAddModelSchema reg modelName fields required comments exclude readOnly writeOnly ∧
    (∀ n, getSchema
        (FastifyAddModelSchema
          (FastifyAddModelSchema reg modelName fields required comments exclude readOnly writeOnly)
          modelName fields required comments exclude readOnly writeOnly) n
      = getSchema (FastifyAddModelSchema reg modelName fields required comments exclude readOnly writeOnly) n) ∧
    (FastifyAddModelSchema [] modelName fields required comments exclude readOnly writeOnly).map FSchema.id
      = [FastifyGetSchemaName modelName "", FastifyGetSchemaName modelName "post",
         FastifyGetSchemaName modelName "patch"] ∧
    FastifyGetSchemaName modelName "" ≠ FastifyGetSchemaName modelName "post" ∧
    FastifyGetSchemaName modelName "" ≠ FastifyGetSchemaName modelName "patch" ∧
    FastifyGetSchemaName modelName "post" ≠ FastifyGetSchemaName modelName "patch" := by
  have hpres := register_all_present reg modelName fields required comments exclude readOnly writeOnly
  have hnoop : FastifyAddModelSchema
      (FastifyAddModelSchema reg modelName fields required comments exclude readOnly writeOnly)
      modelName fields required comments exclude readOnly writeOnly
    = FastifyAddModelSchema reg modelName fields required comments exclude readOnly writeOnly := by
    conv_lhs => rw [FastifyAddModelSchema]
    rw [if_pos hpres]
  refine ⟨hnoop, fun n => by rw [hnoop], rfl, FGSN_out_ne_post modelName,
    FGSN_out_ne_patch modelName, FGSN_post_ne_patch modelName⟩

/-- A schema reference or literal as attached to a route: a named reference,
an array of a schema, or the empty schema literal. -/
inductive SchemaObj where
  | ref (id : String)
  | arrayOf (items : SchemaObj)
  | empty
deriving DecidableEq, Repr

/-- One concrete route registered against fastify: HTTP method, path, tags,
operation identifier, description, optional request body schema, and the
response schema map. -/
structure RouteBinding where
  method : String
  path : String
  tags : List String
  operationId : String
  description : String
  body : Option SchemaObj
  responses : List (Nat × SchemaObj)
deriving DecidableEq, Repr

/-- Resolution of the object-spread pattern joining default operation
identifiers and descriptions with caller overrides: an override wins when
its key is present. -/
def resolveOverride (overrides : List (String × String)) (key dflt : String) : String :=
  match overrides.find? (fun p => p.1 = key) with
  | some p => p.2
  | none => dflt

/-- The response schema lookup by status code. -/
def lookupResp (code : Nat) (rs : List (Nat × SchemaObj)) : Option SchemaObj :=
  (rs.find? (fun p => p.1 = code)).map Prod.snd

/-- The six predefined generic views (src/index.js lines 98 to 105). -/
def FastifySequelizeGenericViews : List (String × List String) :=
  [("ListAPIView", ["LIST"]),
   ("ListCreateAPIView", ["LIST", "CREATE"]),
   ("RetrieveAPIView", ["RETRIEVE"]),
   ("CreateAPIView", ["CREATE"]),
   ("UpdateAPIView", ["UPDATE"]),
   ("RetrieveUpdateDestroyAPIView", ["RETRIEVE", "UPDATE", "DESTROY"])]

/-- Route composition of FastifySequelizeAPI (src/index.js lines 143 to
368), given a present fastify instance and Model.  Every route is
registered at the caller-supplied path argument (pfx models the prefix
parameter); the source appends no suffix for instance routes.  The body and
response schemas are the references built at lines 176 to 194; operation
identifiers and descriptions are the defaults of lines 143 to 160 merged
with caller overrides. -/
def composeBindings (pfx modelName : String) (genericView : List String)
    (responseSchema : Option SchemaObj) (operationIds descriptions : List (String × String))
    (tags : List String) : List RouteBinding :=
  let responseSchemaResolved :=
    responseSchema.getD (SchemaObj.ref (FastifyGetSchemaName modelName ""))
  let postBodySchema := SchemaObj.ref (FastifyGetSchemaName modelName "post")
  let putBodySchema := postBodySchema
  let patchBodySchema := SchemaObj.ref (FastifyGetSchemaName modelName "patch")
  (if "RETRIEVE" ∈ genericView then
    [{ method := "GET", path := pfx, tags := tags,
       operationId := resolveOverride operationIds "RETRIEVE" (camelCase ("get " ++ modelName)),
       description := resolveOverride descriptions "RETRIEVE" "Retrieve an instance.",
       body := none,
       responses := [(200, responseSchemaResolved), (403, SchemaObj.empty)] }]
  else []) ++
  (if "LIST" ∈ genericView then
    [{ method := "GET", path := pfx, tags := tags,
       operationId := resolveOverride operationIds "LIST" (camelCase ("get " ++ modelName ++ "s")),
       description := resolveOverride descriptions "LIST" "Fetch instances.",
       body := none,
       responses := [(200, SchemaObj.arrayOf responseSchemaResolved), (403, SchemaObj.empty)] }]
  else []) ++
  (if "CREATE" ∈ genericView then
    [{ method := "POST", path := pfx, tags := tags,
       operationId := resolveOverride operationIds "CREATE" (camelCase ("post " ++ modelName)),
       description := resolveOverride descriptions "CREATE" "Create a new instance.",
       body := some postBodySchema,
       responses := [(201, responseSchemaResolved)] }]
  else []) ++
  (if "UPDATE" ∈ genericView then
    [{ method := "PATCH", path := pfx, tags := tags,
       operationId := resolveOverride operationIds "UPDATE_PATCH" (camelCase ("patch " ++ modelName)),
       description := resolveOverride descriptions "UPDATE" "Update an instance.",
       body := some patchBodySchema,
       responses := [(200, responseSchemaResolved)] },
     { method := "PUT", path := pfx, tags := tags,
       operationId := resolveOverride operationIds "UPDATE_PUT" (camelCase ("put " ++ modelName)),
       description := resolveOverride descriptions "UPDATE" "Update an instance.",
       body := some putBodySchema,
       responses := [(200, responseSchemaResolved)] }]
  else []) ++
  (if "DESTROY" ∈ genericView then
    [{ method := "DELETE", path := pfx, tags := tags,
       operationId := resolveOverride operationIds "DESTROY" (camelCase ("delete " ++ modelName)),
       description := resolveOverride descriptions "DESTROY" "Destroy an instance.",
       body := none,
       responses := [(200, SchemaObj.empty)] }]
  else [])

/-- Claim C5: for every generic view containing UPDATE, route composition
with the default response schema yields exactly two bindings with method
PATCH or PUT, in that order; their request body references differ (the
Patch identifier for PATCH, the Post identifier for PUT) while their 200
response references are both the Out identifier. -/
theorem c5_update_patch_put_bindings (pfx modelName : String) (genericView : List String)
    (operationIds descriptions : List (String × String)) (tags : List String)
    (hu : "UPDATE" ∈ genericView) :
    ((composeBindings pfx modelName genericView none operationIds descriptions tags).filter
        (fun b => b.method = "PATCH" ∨ b.method = "PUT")).map RouteBinding.method
      = ["PATCH", "PUT"] ∧
    ((composeBindings pfx modelName genericView none operationIds descriptions tags).filter
        (fun b => b.method = "PATCH" ∨ b.method = "PUT")).map RouteBinding.body
      = [some (SchemaObj.ref (FastifyGetSchemaName modelName "patch")),
         some (SchemaObj.ref (FastifyGetSchemaName modelName "post"))] ∧
    FastifyGetSchemaName modelName "patch" ≠ FastifyGetSchemaName modelName "post" ∧
    ((composeBindings pfx modelName genericView none operationIds descriptions tags).filter
        (fun b => b.method = "PATCH" ∨ b.method = "PUT")).map
          (fun b => lookupResp 200 b.responses)
      = [some (SchemaObj.ref (FastifyGetSchemaName modelName "")),
         some (SchemaObj.ref (FastifyGetSchemaName modelName ""))] := by
  have hpp : FastifyGetSchemaName modelName "patch" ≠ FastifyGetSchemaName modelName "post" :=
    fun h => FGSN_post_ne_patch modelName h.symm
  by_cases h1 : "RETRIEVE" ∈ genericView <;>
    by_cases h2 : "LIST" ∈ genericView <;>
      by_cases h3 : "CREATE" ∈ genericView <;>
        by_cases h4 : "DESTROY" ∈ genericView <;>
          simp [composeBindings, h1, h2, h3, h4, hu, hpp, lookupResp, List.find?_cons]

/-- Witness for claim C5 with a concrete entity and view. -/
theorem c5_update_patch_put_bindings_witness :
    ((composeBindings "/widgets" "widget" ["UPDATE"] none [] [] []).filter
        (fun b => b.method = "PATCH" ∨ b.method = "PUT")).map RouteBinding.method
      = ["PATCH", "PUT"] ∧
    ((composeBindings "/widgets" "widget" ["UPDATE"] none [] [] []).filter
        (fun b => b.method = "PATCH" ∨ b.method = "PUT")).map RouteBinding.body
      = [some (SchemaObj.ref (FastifyGetSchemaName "widget" "patch")),
         some (SchemaObj.ref (FastifyGetSchemaName "widget" "post"))] ∧
    FastifyGetSchemaName "widget" "patch" ≠ FastifyGetSchemaName "widget" "post" ∧
    ((composeBindings "/widgets" "widget" ["UPDATE"] none [] [] []).filter
        (fun b => b.method = "PATCH" ∨ b.method = "PUT")).map
          (fun b => lookupResp 200 b.responses)
      = [some (SchemaObj.ref (FastifyGetSchemaName "widget" "")),
         some (SchemaObj.ref (FastifyGetSchemaName "widget" ""))] :=
  c5_update_patch_put_bindings "/widgets" "widget" ["UPDATE"] [] [] []
    (by decide)

/-- Counterexample for claim C8: with the generic view containing both
RETRIEVE and LIST, the two registered GET bindings do NOT have distinct
paths; both are registered at the caller-supplied path, so the path list of
the GET bindings has a duplicate. -/
theorem c8_counterexample_shared_path :
    ¬ (((composeBindings "/widgets" "Widget" ["RETRIEVE", "LIST"] none [] [] []).filter
        (fun b => b.method = "GET")).map RouteBinding.path).Nodup := by
  decide

/-- Claim C8 amended: RETRIEVE maps to a GET binding and LIST maps to a GET
binding, but both are registered at the same caller-supplied path: the
source does not derive distinct instance and collection paths.  For a view
containing both, the two GET bindings share one path.  No predefined
generic view combines RETRIEVE with LIST. -/
theorem c8_retrieve_list_get_same_path (pfx modelName : String) (genericView : List String)
    (responseSchema : Option SchemaObj) (operationIds descriptions : List (String × String))
    (tags : List String)
    (hr : "RETRIEVE" ∈ genericView) (hl : "LIST" ∈ genericView) :
    ((composeBindings pfx modelName genericView responseSchema operationIds descriptions tags).filter
        (fun b => b.method = "GET")).map RouteBinding.method = ["GET", "GET"] ∧
    ((composeBindings pfx modelName genericView responseSchema operationIds descriptions tags).filter
        (fun b => b.method = "GET")).map RouteBinding.path = [pfx, pfx] ∧
    (∀ v ∈ FastifySequelizeGenericViews, ¬("RETRIEVE" ∈ v.2 ∧ "LIST" ∈ v.2)) := by
  refine ⟨?_, ?_, by decide⟩ <;>
    by_cases h3 : "CREATE" ∈ genericView <;>
      by_cases h4 : "UPDATE" ∈ genericView <;>
        by_cases h5 : "DESTROY" ∈ genericView <;>
          simp [composeBindings, hr, hl, h3, h4, h5]

/-- Witness for the amended claim C8 at a concrete view. -/
theorem c8_retrieve_list_get_same_path_witness :
    ((composeBindings "/widgets" "Widget" ["RETRIEVE", "LIST"] none [] [] []).filter
        (fun b => b.method = "GET")).map RouteBinding.method = ["GET", "GET"] ∧
    ((composeBindings "/widgets" "Widget" ["RETRIEVE", "LIST"] none [] [] []).filter
        (fun b => b.method = "GET")).map RouteBinding.path = ["/widgets", "/widgets"] ∧
    (∀ v ∈ FastifySequelizeGenericViews, ¬("RETRIEVE" ∈ v.2 ∧ "LIST" ∈ v.2)) :=
  c8_retrieve_list_get_same_path "/widgets" "Widget" ["RETRIEVE", "LIST"] none [] [] []
    (by decide) (by decide)

/-- The throw raised when a missing argument is dereferenced. -/
inductive JsError where
  | typeError
deriving DecidableEq, Repr

/-- Messages logged by the console.assert calls at src/index.js lines 139
to 141: in Node a failed console.assert logs its message and continues, it
does not throw. -/
def assertLogs (fastifyArg : Option Unit) (modelArg : Option String)
    (viewArg : Option (List String)) : List String :=
  (if fastifyArg.isNone then ["fastify instance is required."] else []) ++
  (if modelArg.isNone then ["Model is required."] else []) ++
  (if viewArg.isNone then ["genericView is required."] else [])

/-- The five operation names route composition recognizes. -/
def knownOperations : List String := ["RETRIEVE", "LIST", "CREATE", "UPDATE", "DESTROY"]

/-- Model of FastifySequelizeAPI at composition time with possibly missing
required arguments (src/index.js lines 110 to 368).  The console.assert
calls only log.  A missing Model throws a TypeError when Model.name is
dereferenced while building operationIdsResolved (line 144); with Model
present, a missing genericView throws at genericView.includes (line 231);
with both present, a missing fastify throws at the first fastify route
registration, which is reached exactly when the view contains a recognized
operation; otherwise composition completes and registers the bindings. -/
def composeAPIChecked (fastifyArg : Option Unit) (modelArg : Option String)
    (viewArg : Option (List String)) (pfx : String) (responseSchema : Option SchemaObj)
    (operationIds descriptions : List (String × String)) (tags : List String) :
    List String × Except JsError (List RouteBinding) :=
  let logs := assertLogs fastifyArg modelArg viewArg
  match modelArg with
  | none => (logs, .error .typeError)
  | some modelName =>
    match viewArg with
    | none => (logs, .error .typeError)
    | some genericView =>
      match fastifyArg with
      | none =>
        if knownOperations.any (fun op => op ∈ genericView) then (logs, .error .typeError)
        else (logs, .ok [])
      | some _ =>
        (logs, .ok (composeBindings pfx modelName genericView responseSchema
          operationIds descriptions tags))

/-- Counterexample for claim C7: with the router handle missing but the
Model present and the operation set present (and empty), the assertion
message is logged yet composition completes normally with an ok result:
route registration is not halted. -/
theorem c7_counterexample_no_halt :
    (composeAPIChecked none (some "Widget") (some []) "/widgets" none [] [] []).2 = .ok [] ∧
    "fastify instance is required."
      ∈ (composeAPIChecked none (some "Widget") (some []) "/widgets" none [] [] []).1 :=
  ⟨rfl, by decide⟩

/-- Claim C7 amended: missing required composition arguments are detected by
console.assert checks that log an assertion message but do not themselves
halt; route registration halts only through a thrown TypeError when the
missing argument is dereferenced: a missing Model always throws, a missing
operation set throws once the Model is present, and a missing router handle
throws exactly when the operation set contains a recognized operation;
with a missing router handle and no recognized operation, composition
completes normally. -/
theorem c7_missing_args_detection (fastifyArg : Option Unit) (modelArg : Option String)
    (viewArg : Option (List String)) (pfx : String) (responseSchema : Option SchemaObj)
    (operationIds descriptions : List (String × String)) (tags : List String) :
    (modelArg = none →
      (composeAPIChecked fastifyArg modelArg viewArg pfx responseSchema operationIds descriptions tags).2
          = .error .typeError ∧
        "Model is required."
          ∈ (composeAPIChecked fastifyArg modelArg viewArg pfx responseSchema operationIds descriptions tags).1) ∧
    (viewArg = none →
      (composeAPIChecked fastifyArg modelArg viewArg pfx responseSchema operationIds descriptions tags).2
          = .error .typeError ∧
        "genericView is required."
          ∈ (composeAPIChecked fastifyArg modelArg viewArg pfx responseSchema operationIds descriptions tags).1) ∧
    (fastifyArg = none →
      "fastify instance is required."
        ∈ (composeAPIChecked fastifyArg modelArg viewArg pfx responseSchema operationIds descriptions tags).1) ∧
    (∀ genericView, fastifyArg = none → viewArg = some genericView →
      (∃ op ∈ knownOperations, op ∈ genericView) →
      (composeAPIChecked fastifyArg modelArg viewArg pfx responseSchema operationIds descriptions tags).2
        = .error .typeError) := by
  refine ⟨?_, ?_, ?_, ?_⟩
  · intro hm
    subst hm
    simp [composeAPIChecked, assertLogs]
  · intro hv
    subst hv
    cases modelArg <;> simp [composeAPIChecked, assertLogs]
  · intro hf
    subst hf
    cases modelArg <;> cases viewArg <;>
      simp [composeAPIChecked, assertLogs] <;>
        split <;> simp
  · intro genericView hf hv hop
    subst hf
    subst hv
    cases modelArg with
    | none => simp [composeAPIChecked]
    | some modelName =>
      have hany : knownOperations.any (fun op => op ∈ genericView) = true := by
        obtain ⟨op, hop1, hop2⟩ := hop
        exact List.any_eq_true.mpr ⟨op, hop1, by simpa using hop2⟩
      simp [composeAPIChecked, hany]

/-- Witness for the amended claim C7 at concrete missing arguments. -/
theorem c7_missing_args_detection_witness :
    ((composeAPIChecked (some ()) none (some ["LIST"]) "/w" none [] [] []).2
        = .error .typeError ∧
      "Model is required."
        ∈ (composeAPIChecked (some ()) none (some ["LIST"]) "/w" none [] [] []).1) ∧
    ((composeAPIChecked (some ()) (some "Widget") none "/w" none [] [] []).2
        = .error .typeError ∧
      "genericView is required."
        ∈ (composeAPIChecked (some ()) (some "Widget") none "/w" none [] [] []).1) ∧
    ("fastify instance is required."
      ∈ (composeAPIChecked none (some "Widget") (some ["LIST"]) "/w" none [] [] []).1) ∧
    ((composeAPIChecked none (some "Widget") (some ["LIST"]) "/w" none [] [] []).2
      = .error .typeError) :=
  ⟨(c7_missing_args_detection (some ()) none (some ["LIST"]) "/w" none [] [] []).1 rfl,
   (c7_missing_args_detection (some ()) (some "Widget") none "/w" none [] [] []).2.1 rfl,
   (c7_missing_args_detection none (some "Widget") (some ["LIST"]) "/w" none [] [] []).2.2.1 rfl,
   (c7_missing_args_detection none (some "Widget") (some ["LIST"]) "/w" none [] [] []).2.2.2
     ["LIST"] rfl rfl ⟨"LIST", by decide, by decide⟩⟩

/-- JavaScript truthiness of a route parameter value: absent and the empty
string are falsy (src/index.js line 205 tests request.params[lookupUrlParam]
for truthiness). -/
def jsTruthy (p : Option String) : Bool :=
  match p with
  | none => false
  | some s => !s.isEmpty

/-- The resolved results of the three per-request hooks: the coarse
permission hook, the object lookup hook, and the object-level permission
hook.  Each hook is awaited; its resolved value appears here. -/
structure Hooks (I : Type) where
  hasPermission : Bool
  getObject : Option I
  hasObjectPermission : I → Bool

/-- Which of the later hooks were invoked while running the pre-handler. -/
structure CallTrace where
  lookupCalled : Bool
  objectPermCalled : Bool
deriving DecidableEq, Repr

/-- Outcome of the authorization pre-handler: either a reply was sent with
a status code (halting the request), or the request was allowed through
with an optional resolved instance attached. -/
inductive PipelineOutcome (I : Type) where
  | sent (code : Nat)
  | allowed (instance? : Option I)

/-- The appended authorization pre-handler of FastifySequelizeAPI
(src/index.js lines 199 to 222): coarse permission first (401 on reject),
then, unless the method is POST or the lookup parameter is falsy, the
object lookup (404 when it yields nothing) and the object-level permission
check (403 on reject); on success the instance is attached. -/
def runAuthPreHandler {I : Type} (method : String) (lookupParam : Option String)
    (h : Hooks I) : PipelineOutcome I × CallTrace :=
  if h.hasPermission then
    if method = "POST" then (.allowed none, ⟨false, false⟩)
    else if jsTruthy lookupParam then
      match h.getObject with
      | some inst =>
        if h.hasObjectPermission inst then (.allowed (some inst), ⟨true, true⟩)
        else (.sent 403, ⟨true, true⟩)
      | none => (.sent 404, ⟨true, false⟩)
    else (.allowed none, ⟨false, false⟩)
  else (.sent 401, ⟨false, false⟩)

/-- A reply: status code and optional body. -/
structure Reply (B : Type) where
  code : Nat
  body : Option B
deriving DecidableEq, Repr

/-- The fastify request lifecycle around the pre-handler: when the
pre-handler sends a reply the handler body never runs; otherwise the
handler runs with the attached instance.  The final boolean records
whether the handler body ran. -/
def handleRequest {I B : Type} (method : String) (lookupParam : Option String)
    (h : Hooks I) (handler : Option I → Reply B) : Reply B × CallTrace × Bool :=
  match runAuthPreHandler method lookupParam h with
  | (.sent c, t) => (⟨c, none⟩, t, false)
  | (.allowed inst, t) => (handler inst, t, true)

/-- Claim C2: the authorization pipeline short-circuits in a fixed order.
If the coarse permission hook rejects, the reply is 401 and the lookup hook
is never invoked (and the handler body never runs).  If the coarse hook
allows but the lookup hook yields no instance for an instance-scoped
request (method not POST, truthy lookup parameter), the reply is 404 and
the object-permission hook is never invoked (and the handler body never
runs).  If the object-permission hook rejects the resolved instance, the
reply is 403 and the handler body never runs. -/
theorem c2_pipeline_short_circuit {I B : Type} (method : String)
    (lookupParam : Option String) (h : Hooks I) (handler : Option I → Reply B) :
    (h.hasPermission = false →
      handleRequest method lookupParam h handler = (⟨401, none⟩, ⟨false, false⟩, false)) ∧
    (h.hasPermission = true → method ≠ "POST" → jsTruthy lookupParam = true →
      h.getObject = none →
      handleRequest method lookupParam h handler = (⟨404, none⟩, ⟨true, false⟩, false)) ∧
    (∀ inst, h.hasPermission = true → method ≠ "POST" → jsTruthy lookupParam = true →
      h.getObject = some inst → h.hasObjectPermission inst = false →
      handleRequest method lookupParam h handler = (⟨403, none⟩, ⟨true, true⟩, false)) := by
  refine ⟨?_, ?_, ?_⟩
  · intro hp
    simp [handleRequest, runAuthPreHandler, hp]
  · intro hp hm ht hg
    simp [handleRequest, runAuthPreHandler, hp, hm, ht, hg]
  · intro inst hp hm ht hg ho
    simp [handleRequest, runAuthPreHandler, hp, hm, ht, hg, ho]

/-- Witness for claim C2: three concrete hook configurations, one per
short-circuit. -/
theorem c2_pipeline_short_circuit_witness :
    (handleRequest "GET" (some "7")
        ({ hasPermission := false, getObject := some 1,
           hasObjectPermission := fun _ => true } : Hooks Nat)
        (fun _ => (⟨200, some 0⟩ : Reply Nat))
      = (⟨401, none⟩, ⟨false, false⟩, false)) ∧
    (handleRequest "GET" (some "7")
        ({ hasPermission := true, getObject := none,
           hasObjectPermission := fun _ => true } : Hooks Nat)
        (fun _ => (⟨200, some 0⟩ : Reply Nat))
      = (⟨404, none⟩, ⟨true, false⟩, false)) ∧
    (handleRequest "GET" (some "7")
        ({ hasPermission := true, getObject := some 1,
           hasObjectPermission := fun _ => false } : Hooks Nat)
        (fun _ => (⟨200, some 0⟩ : Reply Nat))
      = (⟨403, none⟩, ⟨true, true⟩, false)) :=
  ⟨(c2_pipeline_short_circuit "GET" (some "7")
      { hasPermission := false, getObject := some 1, hasObjectPermission := fun _ => true }
      (fun _ => ⟨200, some 0⟩)).1 rfl,
   (c2_pipeline_short_circuit "GET" (some "7")
      { hasPermission := true, getObject := none, hasObjectPermission := fun _ => true }
      (fun _ => ⟨200, some 0⟩)).2.1 rfl (by decide) rfl rfl,
   (c2_pipeline_short_circuit "GET" (some "7")
      { hasPermission := true, getObject := some 1, hasObjectPermission := fun _ => false }
      (fun _ => ⟨200, some 0⟩)).2.2 1 rfl (by decide) rfl rfl rfl⟩

/-- The DESTROY handler body (src/index.js lines 357 to 365): awaits the
destroy side-effect hook inside a try block; on success it replies 200 with
an empty body, on a thrown failure it catches it and replies 400 with the
failure as body.  The outer Except models propagation to the framework
error layer: this handler never propagates. -/
def destroyHandler {E I : Type} (inst : Option I)
    (performDestroy : Option I → Except E Unit) : Except E (Reply E) :=
  match performDestroy inst with
  | .ok _ => .ok ⟨200, none⟩
  | .error e => .ok ⟨400, some e⟩

/-- The CREATE handler body (src/index.js lines 283 to 290), for contrast:
it has no try block, so a failure of the create side-effect hook
propagates to the framework error layer. -/
def createHandler {E I : Type} (built : I) (performCreate : I → Except E Unit) :
    Except E (Reply I) :=
  match performCreate built with
  | .ok _ => .ok ⟨201, some built⟩
  | .error e => .error e

/-- Claim C4: for every DESTROY request reaching its handler, a failure
raised by the destroy side-effect hook is caught and answered with 400
carrying the failure detail as body (never propagated, hence never a
generic 500), and a successful hook yields 200 with an empty body. -/
theorem c4_destroy_catches_hook_failure {E I : Type} (inst : Option I)
    (performDestroy : Option I → Except E Unit) :
    (∀ e, performDestroy inst = .error e →
      destroyHandler inst performDestroy = .ok ⟨400, some e⟩) ∧
    (performDestroy inst = .ok () →
      destroyHandler inst performDestroy = .ok ⟨200, none⟩) := by
  constructor
  · intro e he
    simp [destroyHandler, he]
  · intro hok
    simp [destroyHandler, hok]

/-- Witness for claim C4: a hook that throws a detailed error string and a
hook that succeeds. -/
theorem c4_destroy_catches_hook_failure_witness :
    ((fun _ => Except.error "boom" : Option Nat → Except String Unit) (some 1)
        = .error "boom" →
      destroyHandler (some 1) (fun _ => Except.error "boom")
        = .ok ⟨400, some "boom"⟩) ∧
    (destroyHandler (some 1) (fun _ => (Except.ok () : Except String Unit))
        = .ok ⟨200, none⟩) :=
  ⟨fun h => (c4_destroy_catches_hook_failure (some 1) (fun _ => Except.error "boom")).1
      "boom" h,
   (c4_destroy_catches_hook_failure (some 1)
      (fun _ => (Except.ok () : Except String Unit))).2 rfl⟩

/-- A JavaScript object as a partial map from key to value, the shape
Object.assign operates on. -/
def JsObj (V : Type) : Type := String → Option V

/-- Model of Object.assign(instance, body) (src/index.js line 311): keys
present in the body overwrite the instance, all other keys keep the
instance value. -/
def objectAssign {V : Type} (inst body : JsObj V) : JsObj V :=
  fun k =>
    match body k with
    | some v => some v
    | none => inst k

/-- The UPDATE handler body shared verbatim by the PATCH route and the PUT
route (src/index.js lines 308 to 316 and 332 to 340): merge the request
body onto the resolved instance with Object.assign, invoke the update
side-effect hook on the merged instance, reply 200 with it.  The first
component is the instance state at the moment the hook is invoked. -/
def updateHandler {E V : Type} (inst body : JsObj V)
    (performUpdate : JsObj V → Except E Unit) : JsObj V × Except E (Reply (JsObj V)) :=
  let merged := objectAssign inst body
  (merged,
    match performUpdate merged with
    | .ok _ => .ok ⟨200, some merged⟩
    | .error e => .error e)

/-- Claim C6: for every update request (PATCH or PUT, which share this
handler body) the state passed to the update side-effect hook is the merge
of the request body onto the resolved instance: keys present in the body
take the body value, keys absent from the body keep the instance value
untouched; this merged state exists before the hook runs, and on hook
success the handler replies 200 with that same merged state. -/
theorem c6_update_merge_frame {E V : Type} (inst body : JsObj V)
    (performUpdate : JsObj V → Except E Unit) :
    (∀ k v, body k = some v → (updateHandler inst body performUpdate).1 k = some v) ∧
    (∀ k, body k = none → (updateHandler inst body performUpdate).1 k = inst k) ∧
    (performUpdate (objectAssign inst body) = .ok () →
      (updateHandler inst body performUpdate).2
        = .ok ⟨200, some (updateHandler inst body performUpdate).1⟩) := by
  refine ⟨?_, ?_, ?_⟩
  · intro k v hk
    simp [updateHandler, objectAssign, hk]
  · intro k hk
    simp [updateHandler, objectAssign, hk]
  · intro hok
    simp [updateHandler, hok]

/-- Witness for claim C6: the specification scenario, body with name x
merged onto an instance with name old and secret s leaves secret untouched
and overwrites name, in the state handed to the hook. -/
theorem c6_update_merge_frame_witness :
    ((fun k => if k = "name" then some "x" else none : JsObj String) "name" = some "x" →
      (updateHandler
        (fun k => if k = "name" then some "old"
          else if k = "secret" then some "s" else none)
        (fun k => if k = "name" then some "x" else none)
        (fun _ => (Except.ok () : Except String Unit))).1 "name" = some "x") ∧
    ((fun k => if k = "name" then some "x" else none : JsObj String) "secret" = none →
      (updateHandler
        (fun k => if k = "name" then some "old"
          else if k = "secret" then some "s" else none)
        (fun k => if k = "name" then some "x" else none)
        (fun _ => (Except.ok () : Except String Unit))).1 "secret"
      = (fun k => if k = "name" then some "old"
          else if k = "secret" then some "s" else none : JsObj String) "secret") :=
  ⟨fun h => (c6_update_merge_frame
      (fun k => if k = "name" then some "old"
        else if k = "secret" then some "s" else none)
      (fun k => if k = "name" then some "x" else none)
      (fun _ => (Except.ok () : Except String Unit))).1 "name" "x" h,
   fun h => (c6_update_merge_frame
      (fun k => if k = "name" then some "old"
        else if k = "secret" then some "s" else none)
      (fun k => if k = "name" then some "x" else none)
      (fun _ => (Except.ok () : Except String Unit))).2.1 "secret" h⟩
